import Mathlib

/-!
Verification of the activity impact calculator of the eco9 backend
(`src/backend/server.ts`), shallowly embedded over the rationals.

JavaScript numbers are modelled as `ℚ`; `Math.round` is round-half-up,
`⌊x + 1/2⌋`.  The `||` fallback chain of the source treats `0` and a
missing field as falsy, which `jsOrNum` reproduces.
-/

namespace Eco9

/-- One subtype entry of the multiplier table.  Each JS object literal
only sets the fields for its own unit; the others are `undefined`,
modelled by `none`. -/
structure SubtypeFactors where
  co2_per_mile : Option ℚ := none
  water_per_mile : Option ℚ := none
  co2_per_kwh : Option ℚ := none
  water_per_kwh : Option ℚ := none
  co2_per_hour : Option ℚ := none
  water_per_hour : Option ℚ := none
  co2_per_kg : Option ℚ := none
  water_per_kg : Option ℚ := none
deriving DecidableEq

/-- JS `x || y` for a possibly-missing number `x`: `undefined` and `0`
are falsy and fall through to `y`. -/
def jsOrNum (x : Option ℚ) (y : ℚ) : ℚ :=
  match x with
  | some v => if v = 0 then y else v
  | none => y

/-- The `impactMultipliers` table of `calculateImpact`, in declaration
order (`Object.keys` iterates string keys in insertion order). -/
def impactMultipliers : List (String × List (String × SubtypeFactors)) :=
  [ ("transport",
      [ ("biking", { co2_per_mile := some (4/10), water_per_mile := some (1/10) }),
        ("walking", { co2_per_mile := some (3/10), water_per_mile := some (5/100) }),
        ("public_transport", { co2_per_mile := some (2/10), water_per_mile := some (8/100) }) ]),
    ("energy",
      [ ("solar", { co2_per_kwh := some (5/2), water_per_kwh := some (1/2) }),
        ("led_bulbs", { co2_per_hour := some (1/10), water_per_hour := some (2/100) }) ]),
    ("waste",
      [ ("recycling", { co2_per_kg := some (9/5), water_per_kg := some (3/10) }),
        ("composting", { co2_per_kg := some (21/10), water_per_kg := some (4/10) }) ]) ]

/-- Result record of `calculateImpact`. -/
structure ImpactResult where
  co2_saved : ℚ
  water_conserved : ℚ
deriving DecidableEq

/-- `Math.round(x * 100) / 100`: round-half-up to two decimals. -/
def round2 (x : ℚ) : ℚ := (⌊x * 100 + 1/2⌋ : ℚ) / 100

/-- `calculateImpact(category, value, unit)` from `src/backend/server.ts`.
The defaults `0.5` / `0.1` are overwritten when the category is a key of
the table and its first declared subtype exists; the factor is picked by
the `co2_per_mile || co2_per_kwh || co2_per_kg || 0.5` chain (note that
the `_per_hour` fields are never consulted by the chain).  The `unitArg`
parameter is accepted but unused. -/
def calculateImpact (category : String) (value : ℚ) (_unitArg : String) : ImpactResult :=
  let defaultCo2 : ℚ := value * (5/10)
  let defaultWater : ℚ := value * (1/10)
  match impactMultipliers.lookup category with
  | some categoryData =>
      match categoryData.head? with
      | some (_, f) =>
          { co2_saved :=
              round2 (value * jsOrNum f.co2_per_mile
                (jsOrNum f.co2_per_kwh (jsOrNum f.co2_per_kg (5/10)))),
            water_conserved :=
              round2 (value * jsOrNum f.water_per_mile
                (jsOrNum f.water_per_kwh (jsOrNum f.water_per_kg (1/10)))) }
      | none =>
          { co2_saved := round2 defaultCo2, water_conserved := round2 defaultWater }
  | none =>
      { co2_saved := round2 defaultCo2, water_conserved := round2 defaultWater }

/-- HTTP-level outcome of the `POST /api/activities` handler, restricted
to the parts the validation decides: a 400 error response with a code,
or a 201 created activity carrying the computed impact. -/
inductive CreateActivityResponse where
  | badRequest (status : Nat) (errorCode : String)
  | created (status : Nat) (impact : ImpactResult)
deriving DecidableEq

/-- Request body of `POST /api/activities`, restricted to the fields the
presence check reads; `none` is an absent field. -/
structure ActivityRequestBody where
  category : Option String := none
  value : Option ℚ := none
  unitField : Option String := none
deriving DecidableEq

/-- JS truthiness of a possibly-missing string: `undefined` and `""` are falsy. -/
def jsTruthyStr (x : Option String) : Bool :=
  match x with
  | some s => !s.isEmpty
  | none => false

/-- JS truthiness of a possibly-missing number: `undefined` and `0` are falsy. -/
def jsTruthyNum (x : Option ℚ) : Bool :=
  match x with
  | some v => v != 0
  | none => false

/-- The validation and impact computation of the `POST /api/activities`
handler: `if (!category || !value || !unit)` returns 400 with code
`MISSING_REQUIRED_FIELDS`, otherwise the activity is created with
`calculateImpact(category, value, unit)`. -/
def handleCreateActivity (body : ActivityRequestBody) : CreateActivityResponse :=
  if !jsTruthyStr body.category || !jsTruthyNum body.value || !jsTruthyStr body.unitField then
    .badRequest 400 "MISSING_REQUIRED_FIELDS"
  else
    .created 201 (calculateImpact (body.category.getD "") (body.value.getD 0)
      (body.unitField.getD ""))

/-! ### Helper lemmas -/

/-- Closed-form case split of `calculateImpact` over the category string. -/
theorem calculateImpact_characterization (c : String) (v : ℚ) (u : String) :
    calculateImpact c v u =
      if c = "transport" then
        { co2_saved := round2 (v * (4/10)), water_conserved := round2 (v * (1/10)) }
      else if c = "energy" then
        { co2_saved := round2 (v * (5/2)), water_conserved := round2 (v * (1/2)) }
      else if c = "waste" then
        { co2_saved := round2 (v * (9/5)), water_conserved := round2 (v * (3/10)) }
      else
        { co2_saved := round2 (v * (5/10)), water_conserved := round2 (v * (1/10)) } := by
  by_cases h1 : c = "transport"
  · subst h1
    simp [calculateImpact, impactMultipliers, List.lookup, jsOrNum]
  by_cases h2 : c = "energy"
  · subst h2
    simp [calculateImpact, impactMultipliers, List.lookup, jsOrNum]
  by_cases h3 : c = "waste"
  · subst h3
    simp [calculateImpact, impactMultipliers, List.lookup, jsOrNum]
  have e1 : (c == "transport") = false := beq_eq_false_iff_ne.mpr h1
  have e2 : (c == "energy") = false := beq_eq_false_iff_ne.mpr h2
  have e3 : (c == "waste") = false := beq_eq_false_iff_ne.mpr h3
  simp [calculateImpact, impactMultipliers, List.lookup, e1, e2, e3, h1, h2, h3]

theorem round2_zero : round2 0 = 0 := by
  norm_num [round2]

theorem round2_nonneg {x : ℚ} (hx : 0 ≤ x) : 0 ≤ round2 x := by
  have h : (0 : ℤ) ≤ ⌊x * 100 + 1/2⌋ := by
    rw [Int.le_floor]
    push_cast
    linarith
  have h2 : (0 : ℚ) ≤ (⌊x * 100 + 1/2⌋ : ℚ) := by exact_mod_cast h
  unfold round2
  exact div_nonneg h2 (by norm_num)

theorem round2_nonpos {x : ℚ} (hx : x ≤ 0) : round2 x ≤ 0 := by
  have h : ⌊x * 100 + 1/2⌋ ≤ 0 := by
    have : ⌊x * 100 + 1/2⌋ < 1 := by
      rw [Int.floor_lt]
      push_cast
      linarith
    omega
  have h2 : (⌊x * 100 + 1/2⌋ : ℚ) ≤ 0 := by exact_mod_cast h
  unfold round2
  exact div_nonpos_of_nonpos_of_nonneg h2 (by norm_num)

theorem round2_mono {x y : ℚ} (hxy : x ≤ y) : round2 x ≤ round2 y := by
  have h : ⌊x * 100 + 1/2⌋ ≤ ⌊y * 100 + 1/2⌋ := by
    apply Int.floor_le_floor
    linarith
  have h2 : (⌊x * 100 + 1/2⌋ : ℚ) ≤ (⌊y * 100 + 1/2⌋ : ℚ) := by exact_mod_cast h
  unfold round2
  linarith

/-! ### Claims -/

/-- C1: for every known category (transport, energy, waste) and every value,
`calculateImpact` returns `round2 (value * f_co2)` and `round2 (value * f_water)`
where the factors are those of the first declared subtype of the category:
biking (0.4, 0.1) for transport, solar (2.5, 0.5) for energy,
recycling (1.8, 0.3) for waste. -/
theorem C1_known_category_first_subtype (v : ℚ) (u : String) :
    calculateImpact "transport" v u =
      { co2_saved := round2 (v * (4/10)), water_conserved := round2 (v * (1/10)) } ∧
    calculateImpact "energy" v u =
      { co2_saved := round2 (v * (5/2)), water_conserved := round2 (v * (1/2)) } ∧
    calculateImpact "waste" v u =
      { co2_saved := round2 (v * (9/5)), water_conserved := round2 (v * (3/10)) } := by
  refine ⟨?_, ?_, ?_⟩ <;>
    simp [calculateImpact, impactMultipliers, List.lookup, jsOrNum]

/-- C2: for every category that is not a key of the multiplier table and
every value, `calculateImpact` falls back to the global default factors
0.5 and 0.1, raising no error. -/
theorem C2_unknown_category_default (c : String) (v : ℚ) (u : String)
    (h : impactMultipliers.lookup c = none) :
    calculateImpact c v u =
      { co2_saved := round2 (v * (5/10)), water_conserved := round2 (v * (1/10)) } := by
  simp [calculateImpact, h]

/-- Witness for C2 at the unknown category `"flying"` with value 3. -/
theorem C2_unknown_category_default_witness :
    impactMultipliers.lookup "flying" = none ∧
    calculateImpact "flying" 3 "miles" =
      { co2_saved := round2 (3 * (5/10)), water_conserved := round2 (3 * (1/10)) } :=
  ⟨rfl, C2_unknown_category_default "flying" 3 "miles" rfl⟩

/-- C3: the three worked examples hold exactly, for any unit string:
transport 5.2 ↦ (2.08, 0.52), energy 3.5 ↦ (8.75, 1.75),
waste 2.1 ↦ (3.78, 0.63). -/
theorem C3_worked_examples (u : String) :
    calculateImpact "transport" (52/10) u =
      { co2_saved := 208/100, water_conserved := 52/100 } ∧
    calculateImpact "energy" (35/10) u =
      { co2_saved := 875/100, water_conserved := 175/100 } ∧
    calculateImpact "waste" (21/10) u =
      { co2_saved := 378/100, water_conserved := 63/100 } := by
  refine ⟨?_, ?_, ?_⟩ <;>
    simp [calculateImpact, impactMultipliers, List.lookup, jsOrNum, round2] <;>
    norm_num

/-- C4: for every category (known or unknown) and every unit, a value of 0
produces the result (0, 0). -/
theorem C4_zero_value (c : String) (u : String) :
    calculateImpact c 0 u = { co2_saved := 0, water_conserved := 0 } := by
  rw [calculateImpact_characterization]
  split_ifs <;> simp [zero_mul, round2_zero]

/-- C5: for every category and every value ≥ 0, both result fields are
non-negative. -/
theorem C5_nonneg_result (c : String) (v : ℚ) (u : String) (hv : 0 ≤ v) :
    0 ≤ (calculateImpact c v u).co2_saved ∧
    0 ≤ (calculateImpact c v u).water_conserved := by
  rw [calculateImpact_characterization]
  split_ifs <;>
    exact ⟨round2_nonneg (mul_nonneg hv (by norm_num)),
           round2_nonneg (mul_nonneg hv (by norm_num))⟩

/-- Witness for C5 at category `"transport"` with value 5. -/
theorem C5_nonneg_result_witness :
    (0 : ℚ) ≤ 5 ∧
    (0 ≤ (calculateImpact "transport" 5 "miles").co2_saved ∧
     0 ≤ (calculateImpact "transport" 5 "miles").water_conserved) :=
  ⟨by norm_num, C5_nonneg_result "transport" 5 "miles" (by norm_num)⟩

/-- C6: the unit argument has no influence on the output. -/
theorem C6_unit_irrelevant (c : String) (v : ℚ) (u1 u2 : String) :
    calculateImpact c v u1 = calculateImpact c v u2 := rfl

/-- C7: `calculateImpact` is total: for every category, value and unit it
returns an `ImpactResult`; no failure branch exists. -/
theorem C7_total (c : String) (v : ℚ) (u : String) :
    ∃ r : ImpactResult, calculateImpact c v u = r := ⟨_, rfl⟩

/-- C8 counterexample: at value −0.01 (category transport), the input is
negative yet the result is (0, 0) — not a negative result, refuting the
claim that a negative value always yields a negative result. -/
theorem C8_counterexample :
    (-(1/100) : ℚ) < 0 ∧
    calculateImpact "transport" (-(1/100)) "miles" =
      { co2_saved := 0, water_conserved := 0 } ∧
    ¬ (calculateImpact "transport" (-(1/100)) "miles").co2_saved < 0 := by
  refine ⟨by norm_num, ?_, ?_⟩
  · simp [calculateImpact, impactMultipliers, List.lookup, jsOrNum, round2]
    norm_num
  · simp [calculateImpact, impactMultipliers, List.lookup, jsOrNum, round2]
    norm_num

/-- C8 amended: a negative value is not rejected; the result is computed by
the same formula and both fields are non-positive (they can round to 0, so
the result is not always strictly negative). -/
theorem C8_negative_value (c : String) (v : ℚ) (u : String) (hv : v < 0) :
    (calculateImpact c v u =
      if c = "transport" then
        { co2_saved := round2 (v * (4/10)), water_conserved := round2 (v * (1/10)) }
      else if c = "energy" then
        { co2_saved := round2 (v * (5/2)), water_conserved := round2 (v * (1/2)) }
      else if c = "waste" then
        { co2_saved := round2 (v * (9/5)), water_conserved := round2 (v * (3/10)) }
      else
        { co2_saved := round2 (v * (5/10)), water_conserved := round2 (v * (1/10)) }) ∧
    (calculateImpact c v u).co2_saved ≤ 0 ∧
    (calculateImpact c v u).water_conserved ≤ 0 := by
  refine ⟨calculateImpact_characterization c v u, ?_⟩
  rw [calculateImpact_characterization]
  split_ifs <;>
    exact ⟨round2_nonpos (by linarith), round2_nonpos (by linarith)⟩

/-- Witness for C8 amended at category `"energy"` with value −10. -/
theorem C8_negative_value_witness :
    (-10 : ℚ) < 0 ∧
    ((calculateImpact "energy" (-10) "kwh" =
      if "energy" = "transport" then
        { co2_saved := round2 ((-10) * (4/10)), water_conserved := round2 ((-10) * (1/10)) }
      else if "energy" = "energy" then
        { co2_saved := round2 ((-10) * (5/2)), water_conserved := round2 ((-10) * (1/2)) }
      else if "energy" = "waste" then
        { co2_saved := round2 ((-10) * (9/5)), water_conserved := round2 ((-10) * (3/10)) }
      else
        { co2_saved := round2 ((-10) * (5/10)), water_conserved := round2 ((-10) * (1/10)) }) ∧
    (calculateImpact "energy" (-10) "kwh").co2_saved ≤ 0 ∧
    (calculateImpact "energy" (-10) "kwh").water_conserved ≤ 0) :=
  ⟨by norm_num, C8_negative_value "energy" (-10) "kwh" (by norm_num)⟩

/-- C9: for every category and every value ≥ 0, water_conserved ≤ co2_saved,
since every water factor is at most the matching CO2 factor. -/
theorem C9_water_le_co2 (c : String) (v : ℚ) (u : String) (hv : 0 ≤ v) :
    (calculateImpact c v u).water_conserved ≤ (calculateImpact c v u).co2_saved := by
  rw [calculateImpact_characterization]
  split_ifs <;> exact round2_mono (by linarith)

/-- Witness for C9 at category `"waste"` with value 7. -/
theorem C9_water_le_co2_witness :
    (0 : ℚ) ≤ 7 ∧
    (calculateImpact "waste" 7 "kg").water_conserved ≤
      (calculateImpact "waste" 7 "kg").co2_saved :=
  ⟨by norm_num, C9_water_le_co2 "waste" 7 "kg" (by norm_num)⟩

/-- C10: a `POST /api/activities` body with value = 0 is rejected with
HTTP 400 and error code MISSING_REQUIRED_FIELDS (the presence check treats
the number 0 as missing), so `calculateImpact` is never reached with
value 0 through this endpoint. -/
theorem C10_zero_value_rejected (body : ActivityRequestBody)
    (h : body.value = some 0) :
    handleCreateActivity body =
      CreateActivityResponse.badRequest 400 "MISSING_REQUIRED_FIELDS" := by
  simp [handleCreateActivity, jsTruthyNum, h]

/-- Witness for C10 at a fully-populated body with value 0. -/
theorem C10_zero_value_rejected_witness :
    ({ category := some "transport", value := some 0, unitField := some "miles" } :
      ActivityRequestBody).value = some 0 ∧
    handleCreateActivity
      { category := some "transport", value := some 0, unitField := some "miles" } =
      CreateActivityResponse.badRequest 400 "MISSING_REQUIRED_FIELDS" :=
  ⟨rfl, C10_zero_value_rejected _ rfl⟩

end Eco9
